import Mathlib

/-!
Verification of the query-orchestration engine in `monitoring/main.py`
(rate limiter, request batcher, response cache, cost optimizer, durable
result buffer).  Python floats are modelled as exact rationals (every
comparison the claims touch is far from a representation boundary),
machine time as natural-number seconds, and the external network / Redis
/ database as explicit state threaded through the functions.
-/

set_option linter.unusedVariables false

namespace Marduk

/-! ### Python string primitives used by the engine -/

/-- Python `needle in hay` on character lists: `needle` occurs contiguously. -/
def subOccurs (needle : List Char) : List Char → Bool
  | [] => needle.isEmpty
  | c :: rest => needle.isPrefixOf (c :: rest) || subOccurs needle rest

/-- Python `needle in hay` for strings. -/
def strContains (hay needle : String) : Bool :=
  subOccurs needle.data hay.data

/-- Python `str.lower()` (ASCII case folding suffices for the engine's data). -/
def pyLower (s : String) : String :=
  String.mk (s.data.map Char.toLower)

/-- Helper for `pyWords`: split characters on whitespace runs, dropping
empty pieces; `acc` holds the current word reversed. -/
def pyWordsAux (acc : List Char) : List Char → List String
  | [] => if acc.isEmpty then [] else [String.mk acc.reverse]
  | c :: rest =>
    if c.isWhitespace then
      if acc.isEmpty then pyWordsAux [] rest
      else String.mk acc.reverse :: pyWordsAux [] rest
    else pyWordsAux (c :: acc) rest

/-- Python `str.split()`: split on whitespace runs, dropping empty pieces. -/
def pyWords (s : String) : List String :=
  pyWordsAux [] s.data

/-! ### CostOptimizer._calculate_query_complexity (main.py 372-390) -/

/-- The fixed complexity-keyword set of `_calculate_query_complexity`. -/
def complexKeywords : List String :=
  ["compare", "analyze", "evaluate", "synthesize", "recommend", "optimize"]

/-- The bracket characters tested by the structure heuristic. -/
def bracketChars : List Char := ['(', ')', '[', ']', '\x7b', '\x7d']

/-- `CostOptimizer._calculate_query_complexity` (main.py 372-390):
length score `min(words/100,1)*0.3`, keyword score
`(#keywords occurring as substrings of the lowered text)/6*0.4`, and
`+0.1` for each of question mark / `and`-`or` substring / bracket. -/
def calculate_query_complexity (query_text : String) : ℚ :=
  let length_score : ℚ := min ((pyWords query_text).length / 100 : ℚ) 1 * (3/10)
  let keyword_score : ℚ :=
    ((complexKeywords.countP (fun w => strContains (pyLower query_text) w)) / 6 : ℚ) * (4/10)
  let q_mark : ℚ := if strContains query_text "?" then 1/10 else 0
  let conj : ℚ :=
    if strContains (pyLower query_text) "and" || strContains (pyLower query_text) "or"
    then 1/10 else 0
  let brack : ℚ :=
    if bracketChars.any (fun c => query_text.data.contains c) then 1/10 else 0
  length_score + keyword_score + (q_mark + conj + brack)

/-! ### LLMCosts (main.py 258-342) -/

/-- The static price table `LLMCosts.COSTS`, per 1K tokens, in source
(dict-insertion) order. -/
def COSTS : List (String × List (String × ℚ × ℚ)) :=
  [("openai",
     [("gpt-4", 3/100, 6/100),
      ("gpt-3.5-turbo", 1/1000, 2/1000),
      ("text-ada-001", 4/10000, 4/10000)]),
   ("anthropic",
     [("claude-2", 8/1000, 24/1000),
      ("claude-instant", 8/10000, 24/10000)]),
   ("google",
     [("gemini-pro", 1/1000, 2/1000)])]

/-- `LLMCosts.estimate_cost` (main.py 293-309): 50/50 input/output token
split at the table prices; unknown provider or model raises `ValueError`. -/
def estimate_cost (llm_type llm_version : String) (estimated_tokens : Nat) :
    Except String ℚ :=
  match COSTS.lookup (pyLower llm_type) with
  | none => .error ("Unknown LLM type: " ++ llm_type)
  | some platform_costs =>
    match platform_costs.lookup llm_version with
    | none => .error ("Unknown model version: " ++ llm_version ++ " for " ++ llm_type)
    | some mc =>
      let input_tokens : ℚ := (estimated_tokens / 2 : Nat)
      let output_tokens : ℚ := (estimated_tokens / 2 : Nat)
      .ok ((input_tokens * mc.1 + output_tokens * mc.2) / 1000)

/-- The (platform, model) pairs of the table in iteration order. -/
def costTablePairs : List (String × String) :=
  COSTS.flatMap (fun pm => pm.2.map (fun m => (pm.1, m.1)))

/-- `LLMCosts.recommend_model` (main.py 319-342): scans the table keeping a
candidate whenever its cost fits the ceiling and either no candidate is held
yet or the candidate is a premium model (`openai`/`gpt-4` or
`anthropic`/`claude-2` non-instant); falls back to `gpt-3.5-turbo`. -/
def recommend_model (max_cost_per_query : ℚ) : String × String :=
  let best : Option (String × String × ℚ) :=
    costTablePairs.foldl
      (fun best pm =>
        match estimate_cost pm.1 pm.2 500 with
        | .error _ => best
        | .ok cost =>
          if cost ≤ max_cost_per_query ∧
             (best = none ∨
              (pm.1 = "openai" ∧ strContains pm.2 "gpt-4") ∨
              (pm.1 = "anthropic" ∧ strContains pm.2 "claude-2" ∧
               ¬ strContains pm.2 "instant"))
          then some (pm.1, pm.2, cost) else best)
      none
  match best with
  | none => ("openai", "gpt-3.5-turbo")
  | some b => (b.1, b.2.1)

/-! ### CostOptimizer.optimize_query (main.py 345-395) -/

/-- The `model_performance` map of a `CostOptimizer`, keyed
`f"{llm_type}:{llm_version}"`. -/
abbrev PerfMap := List (String × ℚ)

/-- `CostOptimizer._check_model_performance` (main.py 392-395):
score from history, defaulting to 0.8. -/
def check_model_performance (perf : PerfMap) (llm_type llm_version : String) : ℚ :=
  ((perf.lookup (llm_type ++ ":" ++ llm_version)).getD (8/10))

/-- `CostOptimizer.optimize_query` (main.py 354-370): downgrade premium
models on simple queries (complexity < 0.3); otherwise re-pick via
`recommend_model(0.05)` when historical performance is below 0.7;
otherwise keep the caller's pair.  `brand_name` is accepted and unused,
as in the source. -/
def optimize_query (perf : PerfMap) (query_text brand_name llm_type llm_version : String) :
    String × String :=
  let complexity_score := calculate_query_complexity query_text
  if complexity_score < 3/10 ∧ llm_type = "openai" ∧ strContains llm_version "gpt-4" then
    ("openai", "gpt-3.5-turbo")
  else if complexity_score < 3/10 ∧ llm_type = "anthropic" ∧ strContains llm_version "claude-2" then
    ("anthropic", "claude-instant")
  else if check_model_performance perf llm_type llm_version < 7/10 then
    recommend_model (5/100)
  else
    (llm_type, llm_version)

/-! ### query_llm's cache fingerprint (main.py 484-511) -/

/-- The string fed to `hashlib.md5` for the cache key:
`f"{query_text}:{brand_name}:{llm_type}:{llm_version}"`.  The md5 digest
itself is modelled as the identity on this input (a deterministic
injective stand-in for the hash). -/
def cache_key_input (query_text brand_name llm_type llm_version : String) : String :=
  query_text ++ ":" ++ brand_name ++ ":" ++ llm_type ++ ":" ++ llm_version

/-- The cache key computed by `query_llm` (main.py 488-498): the optimizer
runs first and its returned pair replaces the caller's pair before the
fingerprint is formed. -/
def query_llm_cache_key (perf : PerfMap)
    (query_text brand_name llm_type llm_version : String) : String :=
  let opt := optimize_query perf query_text brand_name llm_type llm_version
  "llm:" ++ cache_key_input query_text brand_name opt.1 opt.2

/-! ### The Redis response cache (get / set-if-absent, main.py 497-605) -/

/-- The minimal payload cached per fingerprint (main.py 591-597):
mention flag, sentiment, rank, response text, tokens. -/
structure MinimalData where
  m : Bool
  s : ℚ
  r : Nat
  t : String
  u : Nat
deriving DecidableEq

/-- The Redis key-value store restricted to the llm cache entries. -/
abbrev RedisCache := List (String × MinimalData)

/-! ### BatchProcessor (main.py 196-253) and the mis-patched _process_items
call (main.py 239, 534, 615) -/

/-- The dict submitted by `query_llm` to `BatchProcessor.add_to_batch`
(main.py 522-526). -/
structure BatchItem where
  query_text : String
  brand_name : String
  cache_key : String
deriving DecidableEq

/-- The per-item result dict the module-level `_process_items` would build
(main.py 582-588): the payload type of `_process_batch`'s success branch. -/
structure BatchResult where
  llm_response : String
  brand_mentioned : Bool
  sentiment_score : ℚ
  ranking_position : Nat
  tokens_used : Nat
deriving DecidableEq

/-- What a waiting caller's completion signal is resolved with: the value
of its `self.results[f"{key}:{id(event)}"]` slot. -/
inductive Delivery where
  | ok : BatchResult → Delivery
  | err : String → Delivery
deriving DecidableEq

/-- True when a delivery carries a per-item result rather than an error dict. -/
def Delivery.isResult : Delivery → Bool
  | .ok _ => true
  | .err _ => false

/-- Python's message for the dispatch failure analysed in
`self_process_items`. -/
def type_error_msg : String :=
  "_process_items() takes 2 positional arguments but 3 were given"

/-- The outcome of `await self._process_items(key, batch)` (main.py 239).
The module-level `_process_items` (main.py 534) has two parameters and no
`self`, but `BatchProcessor._process_items = _process_items` (main.py 615)
is a class-level assignment, so the attribute access binds the instance
and the call passes three positional arguments: it raises `TypeError`
before the function body runs.  Every dispatch therefore produces this
error, issues no outbound POST and leaves the response cache untouched
(the last component instruments the POST count). -/
def self_process_items (key : String) (batch : List BatchItem) (redis : RedisCache) :
    Except String (List BatchResult) × RedisCache × Nat :=
  (.error type_error_msg, redis, 0)

/-- `BatchProcessor(batch_size=10, max_wait_time=0.5)` — the module
instance's batch size (main.py 197, 256). -/
def bp_batch_size : Nat := 10

/-- An `asyncio.create_task` target spawned by the batcher. -/
inductive BPTask where
  | processBatch (key : String)
  | scheduleProcessing (key : String)
deriving DecidableEq

/-- The `BatchProcessor` instance state (main.py 198-203), plus the
response cache and a POST instrumentation counter.  An `asyncio.Event` is
identified by a number standing for `id(event)`; `signalled` lists the
events whose `.set()` has run — an event not in it leaves its caller
suspended in `await event.wait()`. -/
structure BPState where
  batches : List (String × List BatchItem)
  events : List (String × List Nat)
  results : List ((String × Nat) × Delivery)
  signalled : List Nat
  processing : Bool
  redis : RedisCache
  posts : Nat
deriving DecidableEq

/-- `defaultdict(list)`/`defaultdict(set)` read: a missing key is empty. -/
def getAssoc (l : List (String × List α)) (k : String) : List α :=
  (l.lookup k).getD []

/-- `defaultdict` write-back of one key's collection. -/
def setAssoc (l : List (String × List α)) (k : String) (v : List α) :
    List (String × List α) :=
  if (l.lookup k).isSome then l.map (fun e => if e.1 == k then (k, v) else e)
  else l ++ [(k, v)]

/-- `BatchProcessor.add_to_batch` up to its `await event.wait()` (main.py
205-216), one atomic event-loop segment: append the item, add the event
to the key's set, and decide what to spawn — a `_process_batch` when the
key's batch is full and nothing is processing, a `_schedule_processing`
when nothing is processing, and NOTHING at all when `self.processing` is
already held (by any key's in-flight task). -/
def add_to_batch_sync (st : BPState) (key : String) (item : BatchItem) (eid : Nat) :
    BPState × Option BPTask :=
  let b := getAssoc st.batches key ++ [item]
  let e := getAssoc st.events key ++ [eid]
  let st2 := { st with batches := setAssoc st.batches key b,
                       events := setAssoc st.events key e }
  if bp_batch_size ≤ b.length ∧ st2.processing = false then
    (st2, some (.processBatch key))
  else if st2.processing = false then
    (st2, some (.scheduleProcessing key))
  else
    (st2, none)

/-- `BatchProcessor._schedule_processing`'s segment before its sleep
(main.py 219-223): claim the shared `processing` flag and — once the
`max_wait_time` sleep ends — run `_process_batch key`, returned here as
the pending continuation; when the flag is already held the task exits
without ever processing `key`. -/
def schedule_processing_enter (st : BPState) (key : String) : BPState × Option BPTask :=
  if st.processing = false then ({ st with processing := true }, some (.processBatch key))
  else (st, none)

/-- `BatchProcessor._process_batch` (main.py 226-253) as one atomic step
(no await inside completes: the `self._process_items(key, batch)` call
raises immediately, see `self_process_items`).  With no pending items it
just releases the flag; otherwise it swaps out the key's batch and event
set and calls `self._process_items`.  The success branch would zip the
event set (in its arbitrary iteration order) with the results; since the
call always raises, the reachable branch is the `except`, which resolves
every waiting event with the same error dict.  Either way the flag is
released; `_process_batch` spawns no further task. -/
def process_batch_step (st : BPState) (key : String) : BPState :=
  if (getAssoc st.batches key).isEmpty then { st with processing := false }
  else
    let batch := getAssoc st.batches key
    let evs := getAssoc st.events key
    let st2 := { st with batches := setAssoc st.batches key [],
                         events := setAssoc st.events key [] }
    match self_process_items key batch st2.redis with
    | (.ok results, redis2, n) =>
      { st2 with
        results := st2.results ++ (evs.zip results).map
          (fun er => ((key, er.1), Delivery.ok er.2))
        signalled := st2.signalled ++ (evs.zip results).map Prod.fst
        processing := false, redis := redis2, posts := st2.posts + n }
    | (.error e, redis2, n) =>
      { st2 with
        results := st2.results ++ evs.map (fun i => ((key, i), Delivery.err e))
        signalled := st2.signalled ++ evs
        processing := false, redis := redis2, posts := st2.posts + n }

/-! ### APILimits (main.py 116-194) -/

/-- The three providers configured in `APILimits.limits`; any other key
raises `KeyError` in the source. -/
inductive Provider where
  | openai
  | anthropic
  | google
deriving DecidableEq, BEq

/-- Per-provider configuration (main.py 120-139). -/
structure ProviderLimits where
  requests_per_minute : Nat
  tokens_per_minute : Nat
  max_retries : Nat
  base_delay : Nat

/-- `self.limits` (main.py 120-139). -/
def limits : Provider → ProviderLimits
  | .openai => ⟨20, 10000, 5, 1⟩
  | .anthropic => ⟨15, 8000, 5, 1⟩
  | .google => ⟨30, 15000, 5, 1⟩

/-- One minute window's counters (main.py 150-153). -/
structure MinuteUsage where
  requests : Nat
  tokens : Nat
deriving DecidableEq

/-- `self.usage`: per provider, the association of minute keys (wall time
in seconds, bucketed to `now / 60`, the `strftime("%Y-%m-%d-%H-%M")` key)
to window counters.  The outer dict is modelled as a total function whose
missing entries are `[]`, matching the source's insert-on-absent. -/
abbrev UsageMap := Provider → List (Nat × MinuteUsage)

/-- The constructor state `self.usage = {}` (main.py 119). -/
def emptyUsage : UsageMap := fun _ => []

/-- `APILimits.can_make_request` (main.py 141-160): ensure the provider's
current minute window exists, discard every other window key, and admit
iff the current window's request count is below the provider's ceiling. -/
def can_make_request (st : UsageMap) (p : Provider) (now : Nat) : UsageMap × Bool :=
  let mk := now / 60
  let prov := st p
  let prov := match prov.lookup mk with
    | some _ => prov
    | none => prov ++ [(mk, MinuteUsage.mk 0 0)]
  let prov := prov.filter (fun e => e.1 == mk)
  (Function.update st p prov,
   decide (((prov.lookup mk).getD (MinuteUsage.mk 0 0)).requests < (limits p).requests_per_minute))

/-- `APILimits.increment_usage` (main.py 162-177): ensure the current
minute window and bump its request/token counters (no cleanup here). -/
def increment_usage (st : UsageMap) (p : Provider) (now : Nat) (tokens : Nat) : UsageMap :=
  let mk := now / 60
  let prov := st p
  let prov := match prov.lookup mk with
    | some _ => prov
    | none => prov ++ [(mk, MinuteUsage.mk 0 0)]
  let prov := prov.map (fun (e : Nat × MinuteUsage) =>
    if e.1 == mk then (mk, MinuteUsage.mk (e.2.requests + 1) (e.2.tokens + tokens)) else e)
  Function.update st p prov

/-- `APILimits.wait_for_capacity` (main.py 179-191).  The value
`can_make_request` would return at each retry is abstracted as
`can : Nat → Bool`: between the exponential-backoff sleeps other
event-loop tasks mutate the usage map, and the jittered delay itself never
influences the decision sequence. -/
def wait_for_capacity (p : Provider) (can : Nat → Bool) (retry_count : Nat) : Bool :=
  if (limits p).max_retries ≤ retry_count then false
  else if can retry_count then true
  else wait_for_capacity p can (retry_count + 1)
termination_by (limits p).max_retries - retry_count
decreasing_by omega

/-- Number of `can_make_request` evaluations (equivalently, of recursive
attempts) `wait_for_capacity` performs from a given starting count. -/
def wait_for_capacity_checks (p : Provider) (can : Nat → Bool) (retry_count : Nat) : Nat :=
  if (limits p).max_retries ≤ retry_count then 0
  else if can retry_count then 1
  else 1 + wait_for_capacity_checks p can (retry_count + 1)
termination_by (limits p).max_retries - retry_count
decreasing_by omega

/-! ### Rate-limit traces (the call pattern of can_make_request /
increment_usage seen by one provider) -/

/-- One observable rate-limiter call: an admission check, or a usage
record with a token count. -/
inductive RateEvent where
  | check (now : Nat)
  | record (now : Nat) (tokens : Nat)

/-- Run a sequence of rate-limiter calls against the shared usage map,
returning the final map and the `(time, verdict)` log of the admission
checks. -/
def run_rate_events (p : Provider) (st : UsageMap) :
    List RateEvent → UsageMap × List (Nat × Bool)
  | [] => (st, [])
  | .check now :: rest =>
    let out := can_make_request st p now
    let tail := run_rate_events p out.1 rest
    (tail.1, (now, out.2) :: tail.2)
  | .record now tk :: rest =>
    run_rate_events p (increment_usage st p now tk) rest

/-- The number of admitted checks (`can_make_request` returning true)
whose timestamps fall inside the rolling window `[t0, t0+60)`. -/
def admits_in_window (log : List (Nat × Bool)) (t0 : Nat) : Nat :=
  (log.filter (fun e => e.2 && (decide (t0 ≤ e.1) && decide (e.1 < t0 + 60)))).length

/-- The number of admitted checks falling inside the single calendar
minute `m` (the fixed bucket `now / 60` the source actually keys by). -/
def admits_in_minute (log : List (Nat × Bool)) (m : Nat) : Nat :=
  (log.filter (fun e => e.2 && (e.1 / 60 == m))).length

/-- One admitted-request round at time `now`: check admission, and record
the request (as the executor does after the provider call) when admitted. -/
def check_then_record (p : Provider) (st : UsageMap) (now tokens : Nat) :
    UsageMap × Bool :=
  let out := can_make_request st p now
  if out.2 then (increment_usage out.1 p now tokens, true) else (out.1, false)

/-- Run rounds of `check_then_record` for the `(time, tokens)` list,
logging each round's verdict. -/
def run_rounds (p : Provider) (st : UsageMap) :
    List (Nat × Nat) → UsageMap × List (Nat × Bool)
  | [] => (st, [])
  | (now, tk) :: rest =>
    let out := check_then_record p st now tk
    let tail := run_rounds p out.1 rest
    (tail.1, (now, out.2) :: tail.2)

/-! ### ResultQueue (main.py 618-715) -/

/-- A queued result row plus the denormalized fields the three downstream
tables need (main.py 668-696). -/
structure QueuedResult where
  brand_id : String
  topic_id : Option String
  organization_id : String
  query_text : String
  llm_type : String
  llm_version : String
  llm_response : String
  brand_mentioned : Bool
  sentiment_score : ℚ
  ranking_position : Nat
  tokens_used : Nat
deriving DecidableEq

/-- A `keyword_queries` insert row (main.py 669-679). -/
structure QueryRow where
  brand_id : String
  topic_id : Option String
  query_text : String
  llm_type : String
  llm_version : String
  llm_response : String
  brand_mentioned : Bool
  sentiment_score : ℚ
  ranking_position : Nat
deriving DecidableEq

/-- A `ranking_history` insert row (main.py 681-686). -/
structure RankingRow where
  brand_id : String
  topic_id : Option String
  position : Nat
  sentiment_score : ℚ
deriving DecidableEq

/-- An `api_usage` insert row (main.py 688-696). -/
structure UsageRow where
  user_id : String
  organization_id : String
  function_name : String
  tokens_used : Nat
  llm_provider : String
  llm_model : String
  cost_estimate : ℚ
deriving DecidableEq

/-- Row shape for `keyword_queries`. -/
def to_query_row (r : QueuedResult) : QueryRow :=
  { brand_id := r.brand_id
    topic_id := r.topic_id
    query_text := r.query_text
    llm_type := r.llm_type
    llm_version := r.llm_version
    llm_response := r.llm_response
    brand_mentioned := r.brand_mentioned
    sentiment_score := r.sentiment_score
    ranking_position := r.ranking_position }

/-- Row shape for `ranking_history`. -/
def to_ranking_row (r : QueuedResult) : RankingRow :=
  { brand_id := r.brand_id
    topic_id := r.topic_id
    position := r.ranking_position
    sentiment_score := r.sentiment_score }

/-- Row shape for `api_usage`, with the source's inline cost estimate
`(tokens/1000) * (0.03 if "gpt-4" in version.lower() else 0.002)`. -/
def to_usage_row (r : QueuedResult) : UsageRow :=
  { user_id := "system_monitor"
    organization_id := r.organization_id
    function_name := "monitor_brand_mention"
    tokens_used := r.tokens_used
    llm_provider := r.llm_type
    llm_model := r.llm_version
    cost_estimate := ((r.tokens_used : ℚ) / 1000) *
      (if strContains (pyLower r.llm_version) "gpt-4" then 3/100 else 1/500) }

/-- The `ResultQueue` state: the Redis list `result_queue` (head = left)
and the `last_flush` timestamp. -/
structure ResultQueueState where
  queue : List QueuedResult
  last_flush : ℚ
deriving DecidableEq

/-- `ResultQueue.flush_to_database` (main.py 649-712).  The loop `lpop`s up
to `batch_size` items; with none popped it returns untouched.  The three
batched inserts are one logical unit whose outcome is the environment's
`insert_ok`; on success the rows are delivered and `last_flush` is set to
`now`, on failure every popped item is `rpush`ed back (in pop order) and
the timestamp is left alone.  The second component is the delivered row
batch, `none` when nothing was inserted. -/
def flush_to_database (batch_size : Nat) (insert_ok : Bool) (now : ℚ)
    (st : ResultQueueState) :
    ResultQueueState × Option (List QueryRow × List RankingRow × List UsageRow) :=
  let results := st.queue.take batch_size
  let remaining := st.queue.drop batch_size
  if results.isEmpty then (st, none)
  else if insert_ok then
    ({ queue := remaining, last_flush := now },
     some (results.map to_query_row, results.map to_ranking_row, results.map to_usage_row))
  else
    ({ queue := remaining ++ results, last_flush := st.last_flush }, none)

/-! ## Theorems -/

/-- Helper for C4: a failed flush of a queue that fits one batch leaves the
state exactly as it was (every popped item re-enqueued, timestamp kept). -/
theorem flush_fail_small (bs : Nat) (now : ℚ) (st : ResultQueueState)
    (hne : st.queue ≠ []) (hlen : st.queue.length ≤ bs) :
    flush_to_database bs false now st = (st, none) := by
  have hem : ¬(st.queue.isEmpty = true) := by
    cases h : st.queue with
    | nil => exact absurd h hne
    | cons a l => simp [h]
  unfold flush_to_database
  rw [List.take_of_length_le hlen, List.drop_eq_nil_of_le hlen]
  rw [if_neg hem, if_neg (by simp : ¬(false = true))]
  simp

/-- Helper for C4: a successful flush of a queue that fits one batch
delivers the three row lists for exactly the queued items, empties the
queue and stamps the flush time. -/
theorem flush_success_small (bs : Nat) (now : ℚ) (st : ResultQueueState)
    (hne : st.queue ≠ []) (hlen : st.queue.length ≤ bs) :
    flush_to_database bs true now st =
      ({ queue := [], last_flush := now },
       some (st.queue.map to_query_row, st.queue.map to_ranking_row,
             st.queue.map to_usage_row)) := by
  have hem : ¬(st.queue.isEmpty = true) := by
    cases h : st.queue with
    | nil => exact absurd h hne
    | cons a l => simp [h]
  unfold flush_to_database
  rw [List.take_of_length_le hlen, List.drop_eq_nil_of_le hlen]
  rw [if_neg hem, if_pos rfl]

/-- C4: a failed flush re-enqueues every popped item (the resulting queue
is a permutation of the old one — nothing is lost) and leaves the
last-flush timestamp and delivery empty; and when the queue fits in one
batch, the failed flush leaves the queue identical and a subsequent
successful flush delivers exactly the original items and only then
updates the timestamp. -/
theorem C4_flush_requeues_on_failure :
    (∀ (bs : Nat) (now : ℚ) (st : ResultQueueState),
      ((flush_to_database bs false now st).1.queue).Perm st.queue ∧
      (flush_to_database bs false now st).1.last_flush = st.last_flush ∧
      (flush_to_database bs false now st).2 = none) ∧
    (∀ (bs : Nat) (now now' : ℚ) (st : ResultQueueState),
      st.queue ≠ [] → st.queue.length ≤ bs →
      (flush_to_database bs false now st).1.queue = st.queue ∧
      (flush_to_database bs false now st).1.last_flush = st.last_flush ∧
      (flush_to_database bs true now' (flush_to_database bs false now st).1).2 =
        some (st.queue.map to_query_row, st.queue.map to_ranking_row,
              st.queue.map to_usage_row) ∧
      (flush_to_database bs true now' (flush_to_database bs false now st).1).1.last_flush
        = now') := by
  constructor
  · intro bs now st
    unfold flush_to_database
    by_cases h : (st.queue.take bs).isEmpty = true
    · rw [if_pos h]
      exact ⟨List.Perm.refl _, rfl, rfl⟩
    · rw [if_neg h, if_neg (by simp : ¬(false = true))]
      refine ⟨?_, rfl, rfl⟩
      conv_rhs => rw [← List.take_append_drop bs st.queue]
      exact List.perm_append_comm
  · intro bs now now' st hne hlen
    rw [flush_fail_small bs now st hne hlen]
    rw [flush_success_small bs now' st hne hlen]
    exact ⟨rfl, rfl, rfl, rfl⟩

/-- A sample queued result used by witnesses. -/
def sampleQueued : QueuedResult :=
  { brand_id := "brand1"
    topic_id := none
    organization_id := "org1"
    query_text := "how good is AlphaBrand?"
    llm_type := "openai"
    llm_version := "gpt-4"
    llm_response := "AlphaBrand is decent"
    brand_mentioned := true
    sentiment_score := 1/2
    ranking_position := 0
    tokens_used := 100 }

/-- C4 witness: the failed-then-successful flush round trip on a concrete
one-item queue with batch size 10. -/
theorem C4_flush_requeues_on_failure_witness :
    (flush_to_database 10 false 7 ⟨[sampleQueued], 3⟩).1.queue = [sampleQueued] ∧
    (flush_to_database 10 false 7 ⟨[sampleQueued], 3⟩).1.last_flush = 3 ∧
    (flush_to_database 10 true 9 (flush_to_database 10 false 7 ⟨[sampleQueued], 3⟩).1).2 =
      some ([sampleQueued].map to_query_row, [sampleQueued].map to_ranking_row,
            [sampleQueued].map to_usage_row) ∧
    (flush_to_database 10 true 9 (flush_to_database 10 false 7 ⟨[sampleQueued], 3⟩).1).1.last_flush
      = 9 :=
  C4_flush_requeues_on_failure.2 10 7 9 ⟨[sampleQueued], 3⟩ (by simp) (by simp)

/-- C9: from any starting attempt count, `wait_for_capacity` performs at
most `max_retries` admission checks (so it terminates, never retrying
unboundedly), returns true only if some in-range check admitted, and
returns false whenever every in-range check denies (retries exhausted). -/
theorem C9_wait_for_capacity_bounded (p : Provider) (can : Nat → Bool) (r : Nat) :
    wait_for_capacity_checks p can r ≤ (limits p).max_retries ∧
    (wait_for_capacity p can r = true →
      ∃ k, r ≤ k ∧ k < (limits p).max_retries ∧ can k = true) ∧
    ((∀ k, r ≤ k → k < (limits p).max_retries → can k = false) →
      wait_for_capacity p can r = false) := by
  have key : ∀ (d r : Nat), (limits p).max_retries ≤ r + d →
      wait_for_capacity_checks p can r ≤ d ∧
      (wait_for_capacity p can r = true →
        ∃ k, r ≤ k ∧ k < (limits p).max_retries ∧ can k = true) ∧
      ((∀ k, r ≤ k → k < (limits p).max_retries → can k = false) →
        wait_for_capacity p can r = false) := by
    intro d
    induction d with
    | zero =>
      intro r hr
      rw [Nat.add_zero] at hr
      refine ⟨?_, ?_, ?_⟩
      · unfold wait_for_capacity_checks
        rw [if_pos hr]
      · unfold wait_for_capacity
        rw [if_pos hr]
        intro h
        exact absurd h (by simp)
      · intro _
        unfold wait_for_capacity
        rw [if_pos hr]
    | succ d ih =>
      intro r hr
      by_cases hmax : (limits p).max_retries ≤ r
      · refine ⟨?_, ?_, ?_⟩
        · unfold wait_for_capacity_checks
          rw [if_pos hmax]
          exact Nat.zero_le _
        · unfold wait_for_capacity
          rw [if_pos hmax]
          intro h
          exact absurd h (by simp)
        · intro _
          unfold wait_for_capacity
          rw [if_pos hmax]
      · obtain ⟨ih1, ih2, ih3⟩ := ih (r + 1) (by omega)
        by_cases hcan : can r = true
        · refine ⟨?_, ?_, ?_⟩
          · unfold wait_for_capacity_checks
            rw [if_neg hmax, if_pos hcan]
            omega
          · intro _
            exact ⟨r, Nat.le_refl _, by omega, hcan⟩
          · intro hall
            exact absurd hcan (by simp [hall r (Nat.le_refl _) (by omega)])
        · refine ⟨?_, ?_, ?_⟩
          · unfold wait_for_capacity_checks
            rw [if_neg hmax, if_neg hcan]
            omega
          · unfold wait_for_capacity
            rw [if_neg hmax, if_neg hcan]
            intro h
            obtain ⟨k, hk1, hk2, hk3⟩ := ih2 h
            exact ⟨k, by omega, hk2, hk3⟩
          · intro hall
            unfold wait_for_capacity
            rw [if_neg hmax, if_neg hcan]
            exact ih3 fun k hk1 hk2 => hall k (by omega) hk2
  exact key (limits p).max_retries r (by omega)

/-- C9 witness: a concrete oracle that only admits on the third check,
starting from attempt 0 (openai: max_retries = 5). -/
theorem C9_wait_for_capacity_bounded_witness :
    wait_for_capacity_checks Provider.openai (fun k => k == 2) 0 ≤
      (limits Provider.openai).max_retries ∧
    (∃ k, 0 ≤ k ∧ k < (limits Provider.openai).max_retries ∧ ((k == 2) = true)) := by
  obtain ⟨h1, h2, h3⟩ := C9_wait_for_capacity_bounded Provider.openai (fun k => k == 2) 0
  refine ⟨h1, h2 ?_⟩
  simp [wait_for_capacity, limits]

/-- C8: the complexity score is exactly the spec's weighted sum — capped
length `min(words/100,1)×0.3`, keyword fraction `(#present)/6×0.4`, and
`+0.1` per structural feature (question mark, and/or conjunction,
bracket) — with the structural part never exceeding 0.3 and the total
always lying in [0,1]. -/
theorem C8_complexity_formula (q : String) :
    calculate_query_complexity q =
      min (((pyWords q).length : ℚ) / 100) 1 * (3/10)
      + ((complexKeywords.countP (fun w => strContains (pyLower q) w) : ℚ) / 6) * (4/10)
      + ((if strContains q "?" = true then (1:ℚ)/10 else 0)
         + (if (strContains (pyLower q) "and" || strContains (pyLower q) "or") = true
            then (1:ℚ)/10 else 0)
         + (if (bracketChars.any (fun c => q.data.contains c)) = true
            then (1:ℚ)/10 else 0)) ∧
    ((if strContains q "?" = true then (1:ℚ)/10 else 0)
       + (if (strContains (pyLower q) "and" || strContains (pyLower q) "or") = true
          then (1:ℚ)/10 else 0)
       + (if (bracketChars.any (fun c => q.data.contains c)) = true
          then (1:ℚ)/10 else 0)) ≤ 3/10 ∧
    0 ≤ calculate_query_complexity q ∧ calculate_query_complexity q ≤ 1 := by
  have b1 : (0:ℚ) ≤ (if strContains q "?" = true then (1:ℚ)/10 else 0) ∧
      (if strContains q "?" = true then (1:ℚ)/10 else 0) ≤ 1/10 := by
    by_cases h : strContains q "?" = true
    · rw [if_pos h]; norm_num
    · rw [if_neg h]; norm_num
  have b2 : (0:ℚ) ≤ (if (strContains (pyLower q) "and" || strContains (pyLower q) "or") = true
        then (1:ℚ)/10 else 0) ∧
      (if (strContains (pyLower q) "and" || strContains (pyLower q) "or") = true
        then (1:ℚ)/10 else 0) ≤ 1/10 := by
    by_cases h : (strContains (pyLower q) "and" || strContains (pyLower q) "or") = true
    · rw [if_pos h]; norm_num
    · rw [if_neg h]; norm_num
  have b3 : (0:ℚ) ≤ (if (bracketChars.any (fun c => q.data.contains c)) = true
        then (1:ℚ)/10 else 0) ∧
      (if (bracketChars.any (fun c => q.data.contains c)) = true
        then (1:ℚ)/10 else 0) ≤ 1/10 := by
    by_cases h : (bracketChars.any (fun c => q.data.contains c)) = true
    · rw [if_pos h]; norm_num
    · rw [if_neg h]; norm_num
  have hstruct : ((if strContains q "?" = true then (1:ℚ)/10 else 0)
       + (if (strContains (pyLower q) "and" || strContains (pyLower q) "or") = true
          then (1:ℚ)/10 else 0)
       + (if (bracketChars.any (fun c => q.data.contains c)) = true
          then (1:ℚ)/10 else 0)) ≤ 3/10 := by
    linarith [b1.2, b2.2, b3.2]
  have hstruct0 : (0:ℚ) ≤ ((if strContains q "?" = true then (1:ℚ)/10 else 0)
       + (if (strContains (pyLower q) "and" || strContains (pyLower q) "or") = true
          then (1:ℚ)/10 else 0)
       + (if (bracketChars.any (fun c => q.data.contains c)) = true
          then (1:ℚ)/10 else 0)) := by
    linarith [b1.1, b2.1, b3.1]
  have hmin0 : (0:ℚ) ≤ min (((pyWords q).length : ℚ) / 100) 1 :=
    le_min (by positivity) (by norm_num)
  have hmin1 : min (((pyWords q).length : ℚ) / 100) 1 ≤ 1 := min_le_right _ _
  have hkw0 : (0:ℚ) ≤ (complexKeywords.countP (fun w => strContains (pyLower q) w) : ℚ) / 6 := by
    positivity
  have hkw1 : ((complexKeywords.countP (fun w => strContains (pyLower q) w) : ℚ) / 6) ≤ 1 := by
    have hle : complexKeywords.countP (fun w => strContains (pyLower q) w) ≤ 6 :=
      List.countP_le_length _
    rw [div_le_one (by norm_num)]
    exact_mod_cast hle
  refine ⟨rfl, hstruct, ?_, ?_⟩
  · unfold calculate_query_complexity
    have t1 : (0:ℚ) ≤ min (((pyWords q).length : ℚ) / 100) 1 * (3/10) := by
      apply mul_nonneg hmin0; norm_num
    have t2 : (0:ℚ) ≤ ((complexKeywords.countP (fun w => strContains (pyLower q) w) : ℚ) / 6) * (4/10) := by
      apply mul_nonneg hkw0; norm_num
    linarith
  · unfold calculate_query_complexity
    have t1 : min (((pyWords q).length : ℚ) / 100) 1 * (3/10) ≤ 3/10 := by
      nlinarith
    have t2 : ((complexKeywords.countP (fun w => strContains (pyLower q) w) : ℚ) / 6) * (4/10) ≤ 4/10 := by
      nlinarith
    linarith

/-- The C7 counterexample query: ten words, none of them (nor any
substring) a complexity keyword, but carrying a question mark, an "and",
and brackets. -/
def c7_query : String := "a b c d e f g and (h) i?"

/-- C7 counterexample: a 10-word query with no complexity keyword still
scores 0.33 ≥ 0.3 through the structural bonuses, so a premium `gpt-4`
request is not downgraded. -/
theorem C7_counterexample :
    (pyWords c7_query).length = 10 ∧
    (∀ w ∈ pyWords c7_query, w ∉ complexKeywords) ∧
    ¬(calculate_query_complexity c7_query < 3/10) ∧
    optimize_query [] c7_query "b" "openai" "gpt-4" = ("openai", "gpt-4") := by
  with_unfolding_all decide

/-- C7 amended: a 10-word query whose lowered text contains no complexity
keyword as a substring and which triggers at most two of the three
structural features scores below 0.3, and then `optimize_query`
downgrades an openai gpt-4-family request to gpt-3.5-turbo and an
anthropic claude-2-family request to claude-instant. -/
theorem C7_amended (q b v1 v2 : String) (perf : PerfMap)
    (hwords : (pyWords q).length = 10)
    (hkw : ∀ w ∈ complexKeywords, strContains (pyLower q) w = false)
    (hstruct : ¬(strContains q "?" = true ∧
      (strContains (pyLower q) "and" || strContains (pyLower q) "or") = true ∧
      (bracketChars.any (fun c => q.data.contains c)) = true)) :
    calculate_query_complexity q < 3/10 ∧
    (strContains v1 "gpt-4" = true →
      optimize_query perf q b "openai" v1 = ("openai", "gpt-3.5-turbo")) ∧
    (strContains v2 "claude-2" = true →
      optimize_query perf q b "anthropic" v2 = ("anthropic", "claude-instant")) := by
  have hcount : complexKeywords.countP (fun w => strContains (pyLower q) w) = 0 :=
    List.countP_eq_zero.mpr (fun w hw => by simp [hkw w hw])
  have hc : calculate_query_complexity q < 3/10 := by
    unfold calculate_query_complexity
    rw [hwords, hcount]
    rw [min_eq_left (by norm_num : ((10:ℕ):ℚ)/100 ≤ 1)]
    by_cases h1 : strContains q "?" = true <;>
    by_cases h2 : (strContains (pyLower q) "and" || strContains (pyLower q) "or") = true <;>
    by_cases h3 : (bracketChars.any (fun c => q.data.contains c)) = true
    · exact absurd ⟨h1, h2, h3⟩ hstruct
    all_goals first
      | (rw [if_pos h1]; first
          | (rw [if_pos h2]; rw [if_neg h3]; push_cast; norm_num)
          | (rw [if_neg h2]; first
              | (rw [if_pos h3]; push_cast; norm_num)
              | (rw [if_neg h3]; push_cast; norm_num)))
      | (rw [if_neg h1]; first
          | (rw [if_pos h2]; first
              | (rw [if_pos h3]; push_cast; norm_num)
              | (rw [if_neg h3]; push_cast; norm_num))
          | (rw [if_neg h2]; first
              | (rw [if_pos h3]; push_cast; norm_num)
              | (rw [if_neg h3]; push_cast; norm_num)))
  refine ⟨hc, fun hv1 => ?_, fun hv2 => ?_⟩
  · simp only [optimize_query]
    rw [if_pos ⟨hc, trivial, hv1⟩]
  · simp only [optimize_query]
    rw [if_neg (fun h => absurd h.2.1 (by decide)), if_pos ⟨hc, trivial, hv2⟩]

/-- C7 witness: a concrete 10-word keyword-free query with only one
structural trigger, downgraded from both premium families. -/
theorem C7_amended_witness :
    calculate_query_complexity "is the alpha gadget better than the beta gadget today?" < 3/10 ∧
    ((strContains "gpt-4-turbo" "gpt-4" = true →
      optimize_query [] "is the alpha gadget better than the beta gadget today?" "b" "openai" "gpt-4-turbo"
        = ("openai", "gpt-3.5-turbo")) ∧
     (strContains "claude-2" "claude-2" = true →
      optimize_query [] "is the alpha gadget better than the beta gadget today?" "b" "anthropic" "claude-2"
        = ("anthropic", "claude-instant"))) := by
  obtain ⟨h1, h2, h3⟩ := C7_amended
    "is the alpha gadget better than the beta gadget today?" "b" "gpt-4-turbo" "claude-2" []
    (by decide) (by decide) (by decide)
  exact ⟨h1, h2, h3⟩

/-- Modelled from the spec's words, for comparison with
`recommend_model`: the cheapest table model whose estimated cost fits the
ceiling (ties — which the shipped table does not realise, its minimum
being unique — kept on the earlier, more capable entry). -/
def spec_cheapest_model (max_cost_per_query : ℚ) : Option (String × String) :=
  (costTablePairs.foldl
    (fun best pm =>
      match estimate_cost pm.1 pm.2 500 with
      | .error _ => best
      | .ok cost =>
        if cost ≤ max_cost_per_query then
          match best with
          | none => some (pm.1, pm.2, cost)
          | some b => if cost < b.2.2 then some (pm.1, pm.2, cost) else best
        else best)
    none).map (fun b => (b.1, b.2.1))

/-- C6 counterexample: with the current pair's performance below 0.7,
`optimize_query` returns `("anthropic", "claude-2")` — the most expensive
premium model within the 0.05 ceiling — not the cheapest in-budget model,
which is `("openai", "text-ada-001")`. -/
theorem C6_counterexample :
    check_model_performance [("google:gemini-pro", 1/2)] "google" "gemini-pro" < 7/10 ∧
    optimize_query [("google:gemini-pro", 1/2)] "plain query" "b" "google" "gemini-pro"
      = ("anthropic", "claude-2") ∧
    spec_cheapest_model (5/100) = some ("openai", "text-ada-001") ∧
    ¬(("anthropic", "claude-2") = (("openai", "text-ada-001") : String × String)) := by
  with_unfolding_all decide

/-- C6 amended: whenever the recorded performance of the current pair is
below 0.7 and neither premium-downgrade branch fires, `optimize_query`
returns `recommend_model(0.05)`, which keeps the last premium model
within the ceiling in table order — with the shipped price table, always
`("anthropic", "claude-2")`, regardless of cheaper in-budget models. -/
theorem C6_amended (perf : PerfMap) (q b t v : String)
    (hperf : check_model_performance perf t v < 7/10)
    (h1 : ¬(calculate_query_complexity q < 3/10 ∧ t = "openai" ∧
        strContains v "gpt-4" = true))
    (h2 : ¬(calculate_query_complexity q < 3/10 ∧ t = "anthropic" ∧
        strContains v "claude-2" = true)) :
    optimize_query perf q b t v = ("anthropic", "claude-2") := by
  simp only [optimize_query]
  rw [if_neg h1, if_neg h2, if_pos hperf]
  with_unfolding_all decide

/-- C6 witness: the amended behaviour at a concrete low-performance
google/gemini-pro pair. -/
theorem C6_amended_witness :
    optimize_query [("google:gemini-pro", 1/2)] "plain query" "b" "google" "gemini-pro"
      = ("anthropic", "claude-2") :=
  C6_amended [("google:gemini-pro", 1/2)] "plain query" "b" "google" "gemini-pro"
    (by with_unfolding_all decide)
    (fun h => absurd h.2.1 (by decide))
    (fun h => absurd h.2.1 (by decide))

/-- C10: the cache fingerprint is formed from the optimizer's returned
pair.  A premium request downgraded on a simple query shares its cache
key with a direct request for the cheap sibling; and the same caller
quadruple addresses different cache keys under different optimizer
performance state. -/
theorem C10_cache_key_from_optimized_pair (q b : String)
    (hsimple : calculate_query_complexity q < 3/10) :
    query_llm_cache_key [] q b "openai" "gpt-4"
      = query_llm_cache_key [] q b "openai" "gpt-3.5-turbo" ∧
    query_llm_cache_key [("google:gemini-pro", 1/2)] "q0" "b0" "google" "gemini-pro"
      ≠ query_llm_cache_key [] "q0" "b0" "google" "gemini-pro" := by
  constructor
  · simp only [query_llm_cache_key, optimize_query]
    rw [if_pos ⟨hsimple, trivial, by decide⟩]
    rw [if_neg (fun h => absurd h.2.2 (by decide)),
        if_neg (fun h => absurd h.2.1 (by decide)),
        if_neg (by with_unfolding_all decide :
          ¬(check_model_performance [] "openai" "gpt-3.5-turbo" < 7/10))]
  · with_unfolding_all decide

/-- C10 witness: the shared-key half at a concrete simple query. -/
theorem C10_cache_key_from_optimized_pair_witness :
    query_llm_cache_key [] "hi" "b" "openai" "gpt-4"
      = query_llm_cache_key [] "hi" "b" "openai" "gpt-3.5-turbo" :=
  (C10_cache_key_from_optimized_pair "hi" "b" (by with_unfolding_all decide)).1

/-- Lookup skips an appended prefix in which the key is absent. -/
theorem lookup_append_of_none {α β : Type} [BEq α] (l1 l2 : List (α × β)) (k : α)
    (h : l1.lookup k = none) : (l1 ++ l2).lookup k = l2.lookup k := by
  induction l1 with
  | nil => rfl
  | cons a l ih =>
    rw [List.lookup_cons] at h
    rw [List.cons_append, List.lookup_cons]
    cases hk : k == a.1
    · rw [hk] at h
      exact ih h
    · rw [hk] at h
      simp at h

/-- Every event of the set receives the shared error dict under its
`f"{key}:{id(event)}"` slot. -/
theorem lookup_map_err (key msg : String) (evs : List Nat) (i : Nat) (hi : i ∈ evs) :
    (evs.map (fun j => ((key, j), Delivery.err msg))).lookup (key, i)
      = some (Delivery.err msg) := by
  induction evs with
  | nil => cases hi
  | cons j l ih =>
    rw [List.map_cons, List.lookup_cons]
    by_cases h : i = j
    · subst h
      simp
    · have hb : (((key, i) : String × Nat) == (key, j)) = false := by simp [h]
      rw [hb]
      rcases List.mem_cons.mp hi with h1 | h1
      · exact absurd h1 h
      · exact ih h1

/-- The empty `BatchProcessor()` state (main.py 198-203, 256). -/
def bp_s0 : BPState :=
  { batches := [], events := [], results := [], signalled := [],
    processing := false, redis := [], posts := 0 }

/-! The C1 interleaving: caller A submits item 1 under `openai:gpt-4`
(spawning the schedule task, which claims the flag and sleeps); caller B
submits item 2 under the same key during the sleep; the scheduled
`_process_batch` then dispatches the two-item batch. -/

def c1_item1 : BatchItem := ⟨"query one", "AlphaBrand", "llm:k1"⟩

def c1_item2 : BatchItem := ⟨"query two", "BetaBrand", "llm:k2"⟩

def c1_step1 : BPState × Option BPTask :=
  add_to_batch_sync bp_s0 "openai:gpt-4" c1_item1 0

def c1_step2 : BPState × Option BPTask :=
  schedule_processing_enter c1_step1.1 "openai:gpt-4"

def c1_step3 : BPState × Option BPTask :=
  add_to_batch_sync c1_step2.1 "openai:gpt-4" c1_item2 1

def c1_final : BPState := process_batch_step c1_step3.1 "openai:gpt-4"

/-- C1 (failing input: any dispatched batch): the class-patched
`self._process_items(key, batch)` call raises TypeError, so the dispatch
resolves BOTH callers' signals with the same error dict, makes no POST,
and never resolves any caller with the result corresponding to its item —
the claim's per-caller, submission-ordered result delivery never occurs. -/
theorem C1_dispatch_always_errors :
    c1_final.results.lookup ("openai:gpt-4", 0) = some (Delivery.err type_error_msg) ∧
    c1_final.results.lookup ("openai:gpt-4", 1) = some (Delivery.err type_error_msg) ∧
    (∀ d ∈ c1_final.results, d.2.isResult = false) ∧
    c1_final.posts = 0 := by
  decide

/-! The C2 interleaving: the same schedule, with the two submissions
carrying the identical query, brand and cache fingerprint — both missed
the cache, both joined the `openai:gpt-4` batch. -/

def c2_item : BatchItem := ⟨"the query", "AcmeCo", "llm:fp"⟩

def c2_step1 : BPState × Option BPTask :=
  add_to_batch_sync bp_s0 "openai:gpt-4" c2_item 0

def c2_step2 : BPState × Option BPTask :=
  schedule_processing_enter c2_step1.1 "openai:gpt-4"

def c2_step3 : BPState × Option BPTask :=
  add_to_batch_sync c2_step2.1 "openai:gpt-4" c2_item 1

def c2_final : BPState := process_batch_step c2_step3.1 "openai:gpt-4"

/-- C2 counterexample: dispatching the batch of the two concurrent
identical-fingerprint submissions makes ZERO ProviderGateway calls (not
exactly one), leaves the cache unpopulated, and resolves both callers
with the same TypeError error — neither caller receives a result payload
at all. -/
theorem C2_duplicate_fingerprint_zero_calls :
    c2_final.posts = 0 ∧ ¬(c2_final.posts = 1) ∧
    c2_final.redis = [] ∧
    c2_final.results.lookup ("openai:gpt-4", 0) = some (Delivery.err type_error_msg) ∧
    c2_final.results.lookup ("openai:gpt-4", 1) = some (Delivery.err type_error_msg) ∧
    (∀ d ∈ c2_final.results, d.2.isResult = false) := by
  decide

/-- C2 amended: dispatching any pending batch issues no network call and
leaves the cache untouched, and every waiting caller — in particular both
callers of two batched identical-fingerprint submissions — has its
completion signal resolved with the same TypeError error dict (which
`query_llm` then surfaces as an HTTP 500), never with a result payload. -/
theorem C2_amended (st : BPState) (key : String) (i : Nat)
    (hne : (getAssoc st.batches key).isEmpty = false)
    (hi : i ∈ getAssoc st.events key)
    (hfresh : st.results.lookup (key, i) = none) :
    (process_batch_step st key).posts = st.posts ∧
    (process_batch_step st key).redis = st.redis ∧
    (process_batch_step st key).results.lookup (key, i)
      = some (Delivery.err type_error_msg) := by
  unfold process_batch_step
  rw [if_neg (by rw [hne]; simp : ¬((getAssoc st.batches key).isEmpty = true))]
  simp only [self_process_items]
  refine ⟨?_, ?_, ?_⟩
  · simp
  · simp
  · rw [lookup_append_of_none _ _ _ hfresh]
    exact lookup_map_err key type_error_msg _ i hi

/-- C2 amended witness: the general dispatch theorem applied to the
concrete two-identical-submission batch. -/
theorem C2_amended_witness :
    (process_batch_step c2_step3.1 "openai:gpt-4").posts = c2_step3.1.posts ∧
    (process_batch_step c2_step3.1 "openai:gpt-4").redis = c2_step3.1.redis ∧
    (process_batch_step c2_step3.1 "openai:gpt-4").results.lookup ("openai:gpt-4", 1)
      = some (Delivery.err type_error_msg) :=
  C2_amended c2_step3.1 "openai:gpt-4" 1 (by decide) (by decide) (by decide)

/-! The C3 interleaving: caller A submits under `openai:gpt-4` (spawning
the schedule task, which claims the shared `processing` flag and sleeps);
caller B submits under `anthropic:claude-2` during the sleep — with the
flag held, `add_to_batch` spawns nothing for B's key; the scheduled
`_process_batch` then handles only A's key and the loop goes idle. -/

def c3_step1 : BPState × Option BPTask :=
  add_to_batch_sync bp_s0 "openai:gpt-4" ⟨"q1", "b1", "llm:k1"⟩ 0

def c3_step2 : BPState × Option BPTask :=
  schedule_processing_enter c3_step1.1 "openai:gpt-4"

def c3_step3 : BPState × Option BPTask :=
  add_to_batch_sync c3_step2.1 "anthropic:claude-2" ⟨"q2", "b2", "llm:k2"⟩ 1

def c3_final : BPState := process_batch_step c3_step3.1 "openai:gpt-4"

/-- C3 (failing input): in the traced interleaving the only spawned tasks
(the schedule task and its `_process_batch` continuation, both for A's
key) are consumed, B's submission spawns nothing, and afterwards the
processor is idle with B's item still pending: A's event is resolved with
exactly one error, while B's event is never signalled — B's caller waits
forever with neither a result nor an error. -/
theorem C3_second_key_starved :
    c3_step1.2 = some (BPTask.scheduleProcessing "openai:gpt-4") ∧
    c3_step2.2 = some (BPTask.processBatch "openai:gpt-4") ∧
    c3_step3.2 = none ∧
    c3_final.results.lookup ("openai:gpt-4", 0) = some (Delivery.err type_error_msg) ∧
    0 ∈ c3_final.signalled ∧
    c3_final.results.lookup ("anthropic:claude-2", 1) = none ∧
    ¬(1 ∈ c3_final.signalled) ∧
    c3_final.processing = false ∧
    getAssoc c3_final.batches "anthropic:claude-2" = [⟨"q2", "b2", "llm:k2"⟩] := by
  decide

/-! ### C5: the rate window -/

/-- One ceiling-filling burst: 20 check/record rounds at time `t`. -/
def c5_burst (t : Nat) : List RateEvent :=
  (List.replicate 20 [RateEvent.check t, RateEvent.record t 100]).flatten

/-- The C5 trace: fill the openai ceiling at second 59, then again at
second 61 — the calendar minute has rolled over, but both bursts sit
inside the rolling window `[59, 119)`. -/
def c5_trace : List RateEvent := c5_burst 59 ++ c5_burst 61

/-- C5 counterexample: the source buckets by calendar minute, not by a
rolling window — all 40 checks are admitted, and the rolling one-minute
window starting at second 59 contains twice the ceiling of 20. -/
theorem C5_rolling_window_exceeded :
    (limits Provider.openai).requests_per_minute = 20 ∧
    admits_in_window (run_rate_events Provider.openai emptyUsage c5_trace).2 59 = 40 := by
  decide

/-- The request count held for provider `p` in minute bucket `m`. -/
def minuteRequests (st : UsageMap) (p : Provider) (m : Nat) : Nat :=
  (((st p).lookup m).getD (MinuteUsage.mk 0 0)).requests

/-- Filtering an association list to one key preserves that key's lookup. -/
theorem lookup_filter_key (l : List (Nat × MinuteUsage)) (k : Nat) :
    (l.filter (fun e => e.1 == k)).lookup k = l.lookup k := by
  induction l with
  | nil => rfl
  | cons a l ih =>
    obtain ⟨k1, v1⟩ := a
    by_cases h : k1 = k
    · subst h
      simp [List.filter_cons, List.lookup_cons, ih]
    · have h1 : (k1 == k) = false := by simp [h]
      have h2 : (k == k1) = false := by simp [Ne.symm h]
      rw [List.filter_cons, h1]
      simp only [Bool.false_eq_true, if_false]
      rw [ih, List.lookup_cons, h2]

/-- A key that looks up to nothing also filters to nothing. -/
theorem filter_key_nil_of_lookup_none (l : List (Nat × MinuteUsage)) (k : Nat)
    (h : l.lookup k = none) : l.filter (fun e => e.1 == k) = [] := by
  induction l with
  | nil => rfl
  | cons a l ih =>
    obtain ⟨k1, v1⟩ := a
    rw [List.lookup_cons] at h
    by_cases hk : k1 = k
    · subst hk
      simp at h
    · rw [List.filter_cons]
      have hne : (k1 == k) = false := by simp [hk]
      rw [hne]
      simp only [Bool.false_eq_true, if_false]
      refine ih ?_
      have : (k == k1) = false := by simp [Ne.symm hk]
      rwa [this] at h

/-- A successful association lookup witnesses membership of the pair. -/
theorem mem_of_lookup_some (l : List (Nat × MinuteUsage)) (k : Nat) (v : MinuteUsage)
    (h : l.lookup k = some v) : (k, v) ∈ l := by
  induction l with
  | nil => cases h
  | cons a l ih =>
    obtain ⟨k1, v1⟩ := a
    rw [List.lookup_cons] at h
    by_cases hk : k = k1
    · subst hk
      simp at h
      simp [h]
    · have : (k == k1) = false := by simp [hk]
      rw [this] at h
      exact List.mem_cons_of_mem _ (ih h)

/-- The admission verdict is exactly "current minute's request count below
the provider's ceiling". -/
theorem can_make_request_iff (st : UsageMap) (p : Provider) (now : Nat) :
    (can_make_request st p now).2 = true ↔
      minuteRequests st p (now / 60) < (limits p).requests_per_minute := by
  unfold minuteRequests
  simp only [can_make_request]
  cases h : (st p).lookup (now / 60) with
  | some u =>
    simp only [h, lookup_filter_key, decide_eq_true_eq]
  | none =>
    simp only [h, List.filter_append, filter_key_nil_of_lookup_none _ _ h,
      List.filter_cons, List.nil_append, beq_self_eq_true, if_true,
      List.lookup_cons, decide_eq_true_eq]
    simp

/-- The post-state of an admission check holds exactly the current-minute
window, with the pre-state's counters. -/
theorem cmr_post_state (st : UsageMap) (p : Provider) (now : Nat)
    (hlen : (st p).length ≤ 1) :
    ∃ tk0, ((can_make_request st p now).1) p
      = [(now / 60, MinuteUsage.mk (minuteRequests st p (now / 60)) tk0)] := by
  unfold minuteRequests
  simp only [can_make_request]
  rw [Function.update_same]
  rcases hsp : st p with _ | ⟨⟨k, u⟩, rest⟩
  · refine ⟨0, ?_⟩
    simp [List.filter_cons]
  · rcases rest with _ | ⟨e2, rest2⟩
    · by_cases hk : k = now / 60
      · subst hk
        refine ⟨u.tokens, ?_⟩
        simp [List.lookup_cons, List.filter_cons]
      · refine ⟨0, ?_⟩
        have h1 : ([(k, u)] : List (Nat × MinuteUsage)).lookup (now / 60) = none := by
          have h2 : (now / 60 == k) = false := by simp [Ne.symm hk]
          rw [List.lookup_cons, h2]
          rfl
        rw [h1]
        simp [List.filter_cons, hk, Ne.symm hk]
    · rw [hsp] at hlen
      simp at hlen

/-- Recording into a single current-window state bumps its counters. -/
theorem incr_single (st : UsageMap) (p : Provider) (now tk : Nat) (u : MinuteUsage)
    (h : st p = [(now / 60, u)]) :
    (increment_usage st p now tk) p
      = [(now / 60, MinuteUsage.mk (u.requests + 1) (u.tokens + tk))] := by
  simp only [increment_usage]
  rw [Function.update_same, h]
  simp [List.lookup_cons]

/-- The times logged by `run_rounds` are the round times. -/
theorem run_rounds_times (p : Provider) (rounds : List (Nat × Nat)) (st : UsageMap) :
    (run_rounds p st rounds).2.map Prod.fst = rounds.map Prod.fst := by
  induction rounds generalizing st with
  | nil => rfl
  | cons a l ih =>
    obtain ⟨now, tk⟩ := a
    simp [run_rounds, ih]

/-- Unfolding step for the per-minute admission count. -/
theorem admits_in_minute_cons (e : Nat × Bool) (log : List (Nat × Bool)) (m : Nat) :
    admits_in_minute (e :: log) m
      = (if e.2 && (e.1 / 60 == m) then 1 else 0) + admits_in_minute log m := by
  unfold admits_in_minute
  rw [List.filter_cons]
  by_cases h : (e.2 && (e.1 / 60 == m)) = true
  · rw [if_pos h, if_pos h, List.length_cons]
    omega
  · rw [if_neg h, if_neg h]
    omega

/-- A log none of whose times fall in minute `m` admits nothing in `m`. -/
theorem admits_in_minute_zero (log : List (Nat × Bool)) (m : Nat)
    (h : ∀ t ∈ log.map Prod.fst, t / 60 ≠ m) : admits_in_minute log m = 0 := by
  induction log with
  | nil => rfl
  | cons e log ih =>
    rw [admits_in_minute_cons]
    have he : e.1 / 60 ≠ m := h e.1 (by simp)
    rw [if_neg (by simp [he])]
    simp [ih fun t ht => h t (by simp [ht])]

/-- Main C5 induction: under check-then-record rounds with nondecreasing
times, from a state whose (at most one) window entry is no later than
every upcoming round's minute, the admissions in any single minute are
bounded by the ceiling minus the minute's starting count. -/
theorem run_rounds_minute_bound (p : Provider) (m : Nat) :
    ∀ (rounds : List (Nat × Nat)) (st : UsageMap),
      (rounds.map Prod.fst).Sorted (· ≤ ·) →
      (∀ e ∈ st p, ∀ t ∈ rounds.map Prod.fst, e.1 ≤ t / 60) →
      (st p).length ≤ 1 →
      admits_in_minute (run_rounds p st rounds).2 m
        ≤ (limits p).requests_per_minute - minuteRequests st p m
  | [], st, _, _, _ => by
    simp [run_rounds, admits_in_minute]
  | (now, tk) :: rest, st, hsort, hent, hlen => by
    have hsc : (∀ b ∈ rest.map Prod.fst, now ≤ b) ∧
        (rest.map Prod.fst).Sorted (· ≤ ·) :=
      List.sorted_cons.mp (by simpa using hsort)
    obtain ⟨hle, hrest⟩ := hsc
    obtain ⟨tk0, hpost⟩ := cmr_post_state st p now hlen
    have hiff := can_make_request_iff st p now
    by_cases hok : (can_make_request st p now).2 = true
    · -- admitted: the record bumps the current window to c + 1
      have hcL : minuteRequests st p (now / 60) < (limits p).requests_per_minute :=
        hiff.mp hok
      have hst2 : (check_then_record p st now tk).1 p
          = [(now / 60, MinuteUsage.mk (minuteRequests st p (now / 60) + 1) (tk0 + tk))] := by
        simp only [check_then_record]
        rw [if_pos hok]
        exact incr_single _ p now tk _ hpost
      have hout2 : (check_then_record p st now tk).2 = true := by
        simp only [check_then_record]
        rw [if_pos hok]
      have hent2 : ∀ e ∈ (check_then_record p st now tk).1 p,
          ∀ t ∈ rest.map Prod.fst, e.1 ≤ t / 60 := by
        rw [hst2]
        intro e he t ht
        simp at he
        subst he
        show now / 60 ≤ t / 60
        exact Nat.div_le_div_right (hle t ht)
      have hlen2 : ((check_then_record p st now tk).1 p).length ≤ 1 := by
        rw [hst2]; simp
      have ih := run_rounds_minute_bound p m rest (check_then_record p st now tk).1
        hrest hent2 hlen2
      show admits_in_minute ((now, (check_then_record p st now tk).2) ::
        (run_rounds p (check_then_record p st now tk).1 rest).2) m
        ≤ (limits p).requests_per_minute - minuteRequests st p m
      rw [admits_in_minute_cons, hout2]
      by_cases hm : now / 60 = m
      · have hm2 : minuteRequests (check_then_record p st now tk).1 p m
            = minuteRequests st p (now / 60) + 1 := by
          rw [← hm]
          show ((((check_then_record p st now tk).1 p).lookup (now / 60)).getD
              (MinuteUsage.mk 0 0)).requests = _
          rw [hst2, List.lookup_cons]
          simp
        rw [hm2] at ih
        rw [hm] at ih hcL
        rw [if_pos (by simp [hm])]
        omega
      · have hb : (m == now / 60) = false := by simp [Ne.symm hm]
        have hm2 : minuteRequests (check_then_record p st now tk).1 p m = 0 := by
          unfold minuteRequests
          rw [hst2, List.lookup_cons, hb]
          rfl
        rw [hm2] at ih
        rw [if_neg (by simp [hm])]
        by_cases hcm : minuteRequests st p m = 0
        · omega
        · have hmem : ∃ u, (st p).lookup m = some u := by
            unfold minuteRequests at hcm
            cases hu : (st p).lookup m with
            | none => rw [hu] at hcm; simp at hcm
            | some u => exact ⟨u, rfl⟩
          obtain ⟨u, hu⟩ := hmem
          have hm_le : m ≤ now / 60 :=
            hent (m, u) (mem_of_lookup_some _ _ _ hu) now (by simp)
          have hm_lt : m < now / 60 := lt_of_le_of_ne hm_le (fun hmm => hm hmm.symm)
          have hz : admits_in_minute
              (run_rounds p (check_then_record p st now tk).1 rest).2 m = 0 := by
            refine admits_in_minute_zero _ _ ?_
            rw [run_rounds_times]
            intro t ht
            have h2 : now / 60 ≤ t / 60 := Nat.div_le_div_right (hle t ht)
            omega
          omega
    · -- denied: nothing recorded, the window count stays put (≥ ceiling)
      have hokf : (can_make_request st p now).2 = false := by
        cases hvv : (can_make_request st p now).2 with
        | false => rfl
        | true => exact absurd hvv hok
      have hcL : (limits p).requests_per_minute ≤ minuteRequests st p (now / 60) := by
        by_contra hlt
        exact hok (hiff.mpr (by omega))
      have hst2 : (check_then_record p st now tk).1 p
          = [(now / 60, MinuteUsage.mk (minuteRequests st p (now / 60)) tk0)] := by
        simp only [check_then_record]
        rw [hokf]
        simp only [Bool.false_eq_true, if_false]
        exact hpost
      have hout2 : (check_then_record p st now tk).2 = false := by
        simp only [check_then_record]
        rw [hokf]
        simp only [Bool.false_eq_true, if_false]
      have hent2 : ∀ e ∈ (check_then_record p st now tk).1 p,
          ∀ t ∈ rest.map Prod.fst, e.1 ≤ t / 60 := by
        rw [hst2]
        intro e he t ht
        simp at he
        subst he
        show now / 60 ≤ t / 60
        exact Nat.div_le_div_right (hle t ht)
      have hlen2 : ((check_then_record p st now tk).1 p).length ≤ 1 := by
        rw [hst2]; simp
      have ih := run_rounds_minute_bound p m rest (check_then_record p st now tk).1
        hrest hent2 hlen2
      show admits_in_minute ((now, (check_then_record p st now tk).2) ::
        (run_rounds p (check_then_record p st now tk).1 rest).2) m
        ≤ (limits p).requests_per_minute - minuteRequests st p m
      rw [admits_in_minute_cons, hout2]
      rw [if_neg (by simp)]
      by_cases hm : now / 60 = m
      · have hm2 : minuteRequests (check_then_record p st now tk).1 p m
            = minuteRequests st p (now / 60) := by
          rw [← hm]
          show ((((check_then_record p st now tk).1 p).lookup (now / 60)).getD
              (MinuteUsage.mk 0 0)).requests = _
          rw [hst2, List.lookup_cons]
          simp
        rw [hm2] at ih
        rw [hm] at ih hcL
        omega
      · have hb : (m == now / 60) = false := by simp [Ne.symm hm]
        have hm2 : minuteRequests (check_then_record p st now tk).1 p m = 0 := by
          unfold minuteRequests
          rw [hst2, List.lookup_cons, hb]
          rfl
        rw [hm2] at ih
        by_cases hcm : minuteRequests st p m = 0
        · omega
        · have hmem : ∃ u, (st p).lookup m = some u := by
            unfold minuteRequests at hcm
            cases hu : (st p).lookup m with
            | none => rw [hu] at hcm; simp at hcm
            | some u => exact ⟨u, rfl⟩
          obtain ⟨u, hu⟩ := hmem
          have hm_le : m ≤ now / 60 :=
            hent (m, u) (mem_of_lookup_some _ _ _ hu) now (by simp)
          have hm_lt : m < now / 60 := lt_of_le_of_ne hm_le (fun hmm => hm hmm.symm)
          have hz : admits_in_minute
              (run_rounds p (check_then_record p st now tk).1 rest).2 m = 0 := by
            refine admits_in_minute_zero _ _ ?_
            rw [run_rounds_times]
            intro t ht
            have h2 : now / 60 ≤ t / 60 := Nat.div_le_div_right (hle t ht)
            omega
          omega

/-- C5 amended: `can_make_request` admits exactly when the current
calendar-minute window's count is below the provider's ceiling, and —
provided each admitted request is recorded before the next check and time
is nondecreasing — the admissions within any single calendar minute never
exceed the ceiling.  A rolling window that straddles a minute boundary
can still see up to twice the ceiling (see the counterexample). -/
theorem C5_amended :
    (∀ (st : UsageMap) (p : Provider) (now : Nat),
      (can_make_request st p now).2 = true ↔
        minuteRequests st p (now / 60) < (limits p).requests_per_minute) ∧
    (∀ (p : Provider) (rounds : List (Nat × Nat)) (m : Nat),
      (rounds.map Prod.fst).Sorted (· ≤ ·) →
      admits_in_minute (run_rounds p emptyUsage rounds).2 m
        ≤ (limits p).requests_per_minute) := by
  refine ⟨can_make_request_iff, fun p rounds m hsort => ?_⟩
  have h := run_rounds_minute_bound p m rounds emptyUsage hsort
    (by intro e he; cases he) (by simp [emptyUsage])
  have hz : minuteRequests emptyUsage p m = 0 := rfl
  rw [hz] at h
  omega

/-- C5 amended witness: two rounds straddling the minute boundary, counted
in minute 0. -/
theorem C5_amended_witness :
    admits_in_minute (run_rounds Provider.openai emptyUsage [(59, 100), (61, 100)]).2 0
      ≤ (limits Provider.openai).requests_per_minute :=
  C5_amended.2 Provider.openai [(59, 100), (61, 100)] 0 (by decide)

end Marduk
